import Mathlib

/-!
Shallow embedding of the rancher-cni-macvlan CNI plugin (macvlan.go).

The repository's single source file implements the ADD/DEL verbs of the CNI
protocol for macvlan sub-interfaces.  Pure control flow is translated into
Lean functions; external collaborators (netlink, the IPAM subprocess, the MAC
lookup service, sysctl, namespace handling) are modelled as oracle fields of
environment records, so that every decision made by the repository's own code
is reproduced faithfully while collaborator outcomes stay arbitrary.
Kernel link state inside a namespace is modelled as the list of link names
present in that namespace.
-/

/-- Macvlan kernel modes (netlink.MacvlanMode values used by macvlan.go). -/
inductive MacvlanMode where
  | bridge
  | priv
  | vepa
  | passthru
deriving DecidableEq, Repr

/-- Errors surfaced by the plugin.  Opaque underlying causes from external
collaborators are carried as `Nat` payloads. -/
inductive CNIErr where
  | loadConfFailed (cause : Nat)
  | masterRequired
  | loadArgsFailed (cause : Nat)
  | netnsOpenFailed (path : String)
  | unknownMode (s : String)
  | masterNotFound (master : String)
  | randomNameFailed (cause : Nat)
  | linkCreateFailed (cause : Nat)
  | proxyArpFailed (tmpName : String) (cause : Nat)
  | renameFailed (ifName : String)
  | missingIPv4Config
  | macLookupFailed (cause : Nat)
  | macSetFailed (cause : Nat)
  | gatewayConflict (gw : Nat)
  | configureFailed (cause : Nat)
  | ipamFailed (cause : Nat)
  | linkNotFound (name : String)
deriving DecidableEq, Repr

/-- An IPv4 network (net.IPNet): address plus mask length.  `net.ParseCIDR
("0.0.0.0/0")` yields the all-zero network, and macvlan.go compares networks
by their printed form, which for IPv4 networks agrees with structural
equality of address and mask length. -/
structure IPNet where
  addr : Nat
  ones : Nat
deriving DecidableEq, Repr

/-- The default destination `0.0.0.0/0` parsed at macvlan.go:204. -/
def defaultNet : IPNet := ⟨0, 0⟩

/-- A route from the IPAM result (types.Route): destination plus optional
gateway (`GW` is a possibly-nil net.IP, modelled as `Option Nat`). -/
structure Route where
  Dst : IPNet
  GW : Option Nat
deriving DecidableEq, Repr

/-- The IPv4 part of an IPAM result (types.IPConfig). -/
structure IPConfig where
  IP : IPNet
  Gateway : Option Nat
  Routes : List Route
deriving DecidableEq, Repr

/-- An IPAM result (types.Result): optional IPv4 config plus a DNS blob,
the latter opaque here. -/
structure IPAMResult where
  IP4 : Option IPConfig
  DNS : Nat
deriving DecidableEq, Repr

/-- `g.Equal(gw)` for a non-nil net.IP `g` and a possibly-nil `gw`
(macvlan.go:211): a non-nil address never equals nil. -/
def ipEqual (g : Nat) (gw : Option Nat) : Bool :=
  match gw with
  | some x => g == x
  | none => false

/-- The loop of macvlan.go:209-218: scan the IPAM route list in order and
return the gateway of the first default route whose gateway is non-nil and
differs from the IPAM-assigned gateway `gw`; `none` when no such route
exists. -/
def findGwConflict (gw : Option Nat) : List Route → Option Nat
  | [] => none
  | r :: rs =>
    if r.Dst = defaultNet then
      match r.GW with
      | some g => if ipEqual g gw then findGwConflict gw rs else some g
      | none => findGwConflict gw rs
    else findGwConflict gw rs

/-- macvlan.go:203-226: when `isDefaultGW` is set, fail with the gateway
conflict error if a conflicting default route exists, otherwise append one
default route via the IPAM gateway.  Returns the (possibly mutated) IPv4
config together with an optional error, mirroring the in-place mutation of
`result.IP4.Routes`: on the error path the route list is returned as it was. -/
def defaultGwStep (isDefaultGW : Bool) (ip4 : IPConfig) : IPConfig × Option CNIErr :=
  if isDefaultGW then
    match findGwConflict ip4.Gateway ip4.Routes with
    | some g => (ip4, some (.gatewayConflict g))
    | none => ({ ip4 with Routes := ip4.Routes ++ [⟨defaultNet, ip4.Gateway⟩] }, none)
  else (ip4, none)

/-- The closure run inside the target namespace at macvlan.go:197-229:
set the MAC address (outcome `macSetErr`, external), apply the default
gateway policy, then hand the resulting config to `configureInterface`
(outcome `cfgErr`, external).  Returns the final state of `result.IP4`
together with an optional error. -/
def nsConfigure (macSetErr cfgErr : Option Nat) (isDefaultGW : Bool) (ip4 : IPConfig) :
    IPConfig × Option CNIErr :=
  match macSetErr with
  | some e => (ip4, some (.macSetFailed e))
  | none =>
    let s := defaultGwStep isDefaultGW ip4
    match s.2 with
    | some e => (s.1, some e)
    | none =>
      match cfgErr with
      | some e => (s.1, some (.configureFailed e))
      | none => (s.1, none)

theorem findGwConflict_isSome (gw : Option Nat) (l : List Route)
    (h : ∃ r ∈ l, r.Dst = defaultNet ∧ ∃ g, r.GW = some g ∧ ipEqual g gw = false) :
    ∃ g', findGwConflict gw l = some g' := by
  induction l with
  | nil => rcases h with ⟨r, hr, _⟩; cases hr
  | cons a t ih =>
    rcases h with ⟨r, hr, hdst, g, hgw, hne⟩
    rcases List.mem_cons.mp hr with rfl | hmem
    · exact ⟨g, by simp [findGwConflict, hdst, hgw, hne]⟩
    · by_cases hd : a.Dst = defaultNet
      · cases hga : a.GW with
        | none => simpa [findGwConflict, hd, hga] using ih ⟨r, hmem, hdst, g, hgw, hne⟩
        | some ga =>
          by_cases he : ipEqual ga gw = true
          · simpa [findGwConflict, hd, hga, he] using ih ⟨r, hmem, hdst, g, hgw, hne⟩
          · exact ⟨ga, by simp [findGwConflict, hd, hga, he]⟩
      · simpa [findGwConflict, hd] using ih ⟨r, hmem, hdst, g, hgw, hne⟩

theorem findGwConflict_none_of_no_default (gw : Option Nat) (l : List Route)
    (h : ∀ r ∈ l, r.Dst ≠ defaultNet) :
    findGwConflict gw l = none := by
  induction l with
  | nil => rfl
  | cons a t ih =>
    have ha := h a (List.mem_cons_self a t)
    have ht := ih (fun r hr => h r (List.mem_cons_of_mem a hr))
    simp [findGwConflict, ha, ht]

theorem findGwConflict_none_of_compatible (gw : Option Nat) (l : List Route)
    (h : ∀ r ∈ l, r.Dst = defaultNet → r.GW = none ∨ ∃ g, r.GW = some g ∧ gw = some g) :
    findGwConflict gw l = none := by
  induction l with
  | nil => rfl
  | cons a t ih =>
    have ht := ih (fun r hr hd => h r (List.mem_cons_of_mem a hr) hd)
    by_cases hd : a.Dst = defaultNet
    · rcases h a (List.mem_cons_self a t) hd with hnone | ⟨g, hg, hgw⟩
      · simp [findGwConflict, hd, hnone, ht]
      · subst hgw
        simp [findGwConflict, hd, hg, ipEqual, ht]
    · simp [findGwConflict, hd, ht]

/-- C1: with isDefaultGateway=true and an IPAM route list containing a
default route whose gateway is non-nil and differs from the IPAM-assigned
gateway, configuration fails with the gateway-conflict error and the route
list of the IPAM result is left unchanged (no default route is appended). -/
theorem defaultGw_conflict_fails (ip4 : IPConfig) (cfgErr : Option Nat) (r : Route) (g : Nat)
    (hr : r ∈ ip4.Routes) (hdst : r.Dst = defaultNet) (hgw : r.GW = some g)
    (hne : ipEqual g ip4.Gateway = false) :
    ∃ g', nsConfigure none cfgErr true ip4 = (ip4, some (.gatewayConflict g')) := by
  obtain ⟨g', hg'⟩ := findGwConflict_isSome ip4.Gateway ip4.Routes ⟨r, hr, hdst, g, hgw, hne⟩
  exact ⟨g', by simp [nsConfigure, defaultGwStep, hg']⟩

/-- Witness for C1 at a concrete IPAM result: gateway 1, a default route via
gateway 2. -/
theorem defaultGw_conflict_fails_witness :
    ∃ g', nsConfigure none (some 7) true ⟨⟨167772165, 24⟩, some 1, [⟨defaultNet, some 2⟩]⟩ =
      (⟨⟨167772165, 24⟩, some 1, [⟨defaultNet, some 2⟩]⟩, some (.gatewayConflict g')) :=
  defaultGw_conflict_fails ⟨⟨167772165, 24⟩, some 1, [⟨defaultNet, some 2⟩]⟩ (some 7)
    ⟨defaultNet, some 2⟩ 2 (by decide) rfl rfl (by decide)

/-- C4: with isDefaultGateway=true and no default route in the IPAM route
list, configuration appends exactly one route, with the default destination
and the IPAM-assigned gateway, to the IPv4 route list before applying it. -/
theorem defaultGw_append_no_existing (ip4 : IPConfig)
    (h : ∀ r ∈ ip4.Routes, r.Dst ≠ defaultNet) :
    nsConfigure none none true ip4 =
      ({ ip4 with Routes := ip4.Routes ++ [⟨defaultNet, ip4.Gateway⟩] }, none) := by
  have hn := findGwConflict_none_of_no_default ip4.Gateway ip4.Routes h
  simp [nsConfigure, defaultGwStep, hn]

/-- Witness for C4 at a concrete IPAM result with one non-default route. -/
theorem defaultGw_append_no_existing_witness :
    nsConfigure none none true ⟨⟨167772165, 24⟩, some 9, [⟨⟨167772160, 24⟩, none⟩]⟩ =
      (⟨⟨167772165, 24⟩, some 9, [⟨⟨167772160, 24⟩, none⟩, ⟨defaultNet, some 9⟩]⟩, none) :=
  defaultGw_append_no_existing ⟨⟨167772165, 24⟩, some 9, [⟨⟨167772160, 24⟩, none⟩]⟩
    (by decide)

/-- C10: with isDefaultGateway=true and an existing default route whose
gateway is nil or equal to the IPAM-assigned gateway, the gateway step still
appends an additional default route via the IPAM gateway, so the applied
route list holds at least two routes with the default destination. -/
theorem defaultGw_append_despite_existing_default (ip4 : IPConfig)
    (hex : ∃ r ∈ ip4.Routes, r.Dst = defaultNet)
    (hok : ∀ r ∈ ip4.Routes, r.Dst = defaultNet →
      r.GW = none ∨ ∃ g, r.GW = some g ∧ ip4.Gateway = some g) :
    defaultGwStep true ip4 =
      ({ ip4 with Routes := ip4.Routes ++ [⟨defaultNet, ip4.Gateway⟩] }, none) ∧
    2 ≤ (defaultGwStep true ip4).1.Routes.countP (fun r => r.Dst == defaultNet) := by
  have hn := findGwConflict_none_of_compatible ip4.Gateway ip4.Routes hok
  have heq : defaultGwStep true ip4 =
      ({ ip4 with Routes := ip4.Routes ++ [⟨defaultNet, ip4.Gateway⟩] }, none) := by
    simp [defaultGwStep, hn]
  refine ⟨heq, ?_⟩
  rw [heq]
  rcases hex with ⟨r, hr, hdst⟩
  have h1 : 0 < ip4.Routes.countP (fun r => r.Dst == defaultNet) :=
    List.countP_pos_iff.mpr ⟨r, hr, by simp [hdst]⟩
  have h2 : (ip4.Routes ++ [Route.mk defaultNet ip4.Gateway]).countP (fun r => r.Dst == defaultNet) =
      ip4.Routes.countP (fun r => r.Dst == defaultNet) + 1 := by
    rw [List.countP_append]
    norm_num [List.countP_cons]
  rw [h2]
  omega

/-- Witness for C10: an IPAM result whose route list already contains a
default route with a nil gateway. -/
theorem defaultGw_append_despite_existing_default_witness :
    defaultGwStep true ⟨⟨167772165, 24⟩, some 9, [⟨defaultNet, none⟩]⟩ =
      (⟨⟨167772165, 24⟩, some 9, [⟨defaultNet, none⟩, ⟨defaultNet, some 9⟩]⟩, none) ∧
    2 ≤ (defaultGwStep true ⟨⟨167772165, 24⟩, some 9, [⟨defaultNet, none⟩]⟩).1.Routes.countP
      (fun r => r.Dst == defaultNet) :=
  defaultGw_append_despite_existing_default ⟨⟨167772165, 24⟩, some 9, [⟨defaultNet, none⟩]⟩
    ⟨⟨defaultNet, none⟩, by decide, rfl⟩ (by decide)

/-- Static plugin configuration (NetConf in macvlan.go): master interface,
mode string, MTU, isDefaultGateway flag, and the DNS blob of the embedded
types.NetConf (opaque here). -/
structure NetConf where
  Master : String
  Mode : String
  MTU : Nat
  IsDefaultGW : Bool
  DNS : Nat
deriving DecidableEq, Repr

/-- Per-invocation arguments recognized by the plugin (NetArgs). -/
structure NetArgs where
  RancherContainerUUID : String
  LinkMTUOverhead : String
  MACAddress : String
deriving DecidableEq, Repr

/-- The skel.CmdArgs fields used by macvlan.go. -/
structure CmdArgs where
  ContainerID : String
  Netns : String
  IfName : String
deriving DecidableEq, Repr

/-- macvlan.go:82-95: resolve the mode string, defaulting the empty string to
bridge and rejecting every unrecognized value. -/
def modeFromString (s : String) : Except CNIErr MacvlanMode :=
  if s = "" ∨ s = "bridge" then .ok .bridge
  else if s = "private" then .ok .priv
  else if s = "vepa" then .ok .vepa
  else if s = "passthru" then .ok .passthru
  else .error (.unknownMode s)

/-- Failure of the primitives used by renameLink (netlink.LinkByName /
netlink.LinkSetName). -/
inductive LinkErr where
  | notFound (name : String)
  | setNameFailed (cause : Nat)
deriving DecidableEq, Repr

/-- Outcomes of the external collaborators consulted by createMacvlan
(macvlan.go:97-145), together with the link names present in the calling
namespace.  `tmpName` is the name produced by ip.RandomVethName on success,
`linkDelErr` the (discarded) result of the rollback netlink.LinkDel. -/
structure ProvisionEnv where
  hostLinks : List String
  randErr : Option Nat
  tmpName : String
  linkAddErr : Option Nat
  sysctlErr : Option Nat
  renameErr : Option Nat
  linkDelErr : Option Nat

/-- netlink.LinkDel on the created link: the link (under whichever name it
currently has, here always the temporary name) is removed from the
namespace; the call's error result is returned so callers can discard it the
way macvlan.go:134/140 do with `_ =`. -/
def linkDel (delErr : Option Nat) (name : String) (links : List String) :
    List String × Option Nat :=
  (links.filter (fun n => n ≠ name), delErr)

/-- macvlan.go:259-266: look up the link by its current name, then set its
name; on lookup failure nothing changes. -/
def renameLink (renameErr : Option Nat) (curName newName : String) (links : List String) :
    List String × Option LinkErr :=
  if curName ∈ links then
    match renameErr with
    | some e => (links, some (.setNameFailed e))
    | none => (links.map (fun n => if n = curName then newName else n), none)
  else (links, some (.notFound curName))

/-- The closure run inside the target namespace at macvlan.go:129-144: enable
proxy-ARP on the temporary name, then rename to the final name; on either
failure delete the just-created link, discarding the deletion error, and
surface the original failure. -/
def inNsProvision (env : ProvisionEnv) (ifName : String) (links : List String) :
    List String × Option CNIErr :=
  match env.sysctlErr with
  | some e =>
    let d := linkDel env.linkDelErr env.tmpName links
    (d.1, some (.proxyArpFailed env.tmpName e))
  | none =>
    let r := renameLink env.renameErr env.tmpName ifName links
    match r.2 with
    | some _ =>
      let d := linkDel env.linkDelErr env.tmpName r.1
      (d.1, some (.renameFailed ifName))
    | none => (r.1, none)

/-- macvlan.go:97-145: resolve the mode, look up the master in the calling
namespace, draw a random temporary name, create the macvlan link with an
atomic move into the target namespace, then run the in-namespace steps.
Returns the final link names of the target namespace together with an
optional error ( `nsLinks` is the target namespace's state on entry). -/
def createMacvlan (env : ProvisionEnv) (conf : NetConf) (ifName : String)
    (nsLinks : List String) : List String × Option CNIErr :=
  match modeFromString conf.Mode with
  | .error e => (nsLinks, some e)
  | .ok _ =>
    if conf.Master ∈ env.hostLinks then
      match env.randErr with
      | some e => (nsLinks, some (.randomNameFailed e))
      | none =>
        match env.linkAddErr with
        | some e => (nsLinks, some (.linkCreateFailed e))
        | none => inNsProvision env ifName (nsLinks ++ [env.tmpName])
    else (nsLinks, some (.masterNotFound conf.Master))

/-- C3: when provisioning fails during the in-namespace steps (proxy-ARP or
rename), the just-created link is deleted before the error is returned, the
(discarded) deletion error does not affect the outcome, the original
proxy-ARP or rename error is the one surfaced, and no link with the
temporary or final name remains in the target namespace. -/
theorem createMacvlan_failure_cleanup (env : ProvisionEnv) (conf : NetConf)
    (ifName : String) (nsLinks : List String) (m : MacvlanMode) (e : Nat)
    (hmode : modeFromString conf.Mode = .ok m)
    (hmaster : conf.Master ∈ env.hostLinks)
    (hrand : env.randErr = none)
    (hadd : env.linkAddErr = none)
    (hfail : env.sysctlErr = some e ∨ (env.sysctlErr = none ∧ env.renameErr = some e))
    (hif : ifName ∉ nsLinks) :
    (env.sysctlErr = some e →
      createMacvlan env conf ifName nsLinks =
        ((nsLinks ++ [env.tmpName]).filter (fun n => n ≠ env.tmpName),
          some (.proxyArpFailed env.tmpName e))) ∧
    (env.sysctlErr = none →
      createMacvlan env conf ifName nsLinks =
        ((nsLinks ++ [env.tmpName]).filter (fun n => n ≠ env.tmpName),
          some (.renameFailed ifName))) ∧
    env.tmpName ∉ (createMacvlan env conf ifName nsLinks).1 ∧
    ifName ∉ (createMacvlan env conf ifName nsLinks).1 ∧
    createMacvlan { env with linkDelErr := none } conf ifName nsLinks =
      createMacvlan env conf ifName nsLinks := by
  have hclean1 : env.tmpName ∉ (nsLinks ++ [env.tmpName]).filter (fun n => n ≠ env.tmpName) := by
    simp [List.mem_filter]
  have hclean2 : ifName ∉ (nsLinks ++ [env.tmpName]).filter (fun n => n ≠ env.tmpName) := by
    intro hmem
    rcases List.mem_filter.mp hmem with ⟨hin, hne⟩
    rcases List.mem_append.mp hin with hin' | hin'
    · exact hif hin'
    · simp at hin'
      simp [hin'] at hne
  rcases hfail with h | ⟨hs, hr⟩
  · have hout : createMacvlan env conf ifName nsLinks =
        ((nsLinks ++ [env.tmpName]).filter (fun n => n ≠ env.tmpName),
          some (.proxyArpFailed env.tmpName e)) := by
      simp [createMacvlan, hmode, hmaster, hrand, hadd, inNsProvision, h, linkDel]
    have hout' : createMacvlan { env with linkDelErr := none } conf ifName nsLinks =
        ((nsLinks ++ [env.tmpName]).filter (fun n => n ≠ env.tmpName),
          some (.proxyArpFailed env.tmpName e)) := by
      simp [createMacvlan, hmode, hmaster, hrand, hadd, inNsProvision, h, linkDel]
    refine ⟨fun _ => hout, fun hn => ?_, ?_, ?_, ?_⟩
    · rw [hn] at h; cases h
    · rw [hout]; exact hclean1
    · rw [hout]; exact hclean2
    · rw [hout, hout']
  · have hmem : env.tmpName ∈ nsLinks ++ [env.tmpName] := by simp
    have hout : createMacvlan env conf ifName nsLinks =
        ((nsLinks ++ [env.tmpName]).filter (fun n => n ≠ env.tmpName),
          some (.renameFailed ifName)) := by
      simp [createMacvlan, hmode, hmaster, hrand, hadd, inNsProvision, hs, hr,
        renameLink, hmem, linkDel]
    have hout' : createMacvlan { env with linkDelErr := none } conf ifName nsLinks =
        ((nsLinks ++ [env.tmpName]).filter (fun n => n ≠ env.tmpName),
          some (.renameFailed ifName)) := by
      simp [createMacvlan, hmode, hmaster, hrand, hadd, inNsProvision, hs, hr,
        renameLink, hmem, linkDel]
    refine ⟨fun hsome => ?_, fun _ => hout, ?_, ?_, ?_⟩
    · rw [hs] at hsome; cases hsome
    · rw [hout]; exact hclean1
    · rw [hout]; exact hclean2
    · rw [hout, hout']

/-- Witness for C3: proxy-ARP setup fails with cause 5 while the rollback
deletion itself reports error 9; the original error is surfaced and the
namespace ends up without the temporary or final name. -/
theorem createMacvlan_failure_cleanup_witness :
    createMacvlan (ProvisionEnv.mk ["eth0"] none "veth9x" none (some 5) none (some 9))
        ⟨"eth0", "bridge", 1500, false, 0⟩ "eth1" ["lo"] =
        ((["lo"] ++ ["veth9x"]).filter (fun n => n ≠ "veth9x"),
          some (.proxyArpFailed "veth9x" 5)) :=
  (createMacvlan_failure_cleanup (ProvisionEnv.mk ["eth0"] none "veth9x" none (some 5) none (some 9))
    ⟨"eth0", "bridge", 1500, false, 0⟩ "eth1" ["lo"] .bridge 5 rfl (by decide) rfl rfl
    (Or.inl rfl) (by decide)).1 rfl

/-- C8: mode-string resolution maps "" and "bridge" to bridge, "private" to
private, "vepa" to vepa, "passthru" to passthru, and fails on every other
string; the resolution happens before the master lookup, so an unrecognized
mode fails for every environment, master present or not. -/
theorem modeFromString_resolution :
    modeFromString "" = .ok .bridge ∧
    modeFromString "bridge" = .ok .bridge ∧
    modeFromString "private" = .ok .priv ∧
    modeFromString "vepa" = .ok .vepa ∧
    modeFromString "passthru" = .ok .passthru ∧
    (∀ s : String, s ≠ "" → s ≠ "bridge" → s ≠ "private" → s ≠ "vepa" → s ≠ "passthru" →
      modeFromString s = .error (.unknownMode s)) ∧
    (∀ (env : ProvisionEnv) (conf : NetConf) (ifName : String) (nsLinks : List String)
      (err : CNIErr), modeFromString conf.Mode = .error err →
      createMacvlan env conf ifName nsLinks = (nsLinks, some err)) := by
  refine ⟨rfl, by simp [modeFromString], by simp [modeFromString], by simp [modeFromString],
    by simp [modeFromString], ?_, ?_⟩
  · intro s h1 h2 h3 h4 h5
    simp [modeFromString, h1, h2, h3, h4, h5]
  · intro env conf ifName nsLinks err h
    simp [createMacvlan, h]

/-- Witness for C8: the unrecognized mode "foo" is rejected even though the
environment's master link list is empty (master absent). -/
theorem modeFromString_resolution_witness :
    modeFromString "foo" = .error (.unknownMode "foo") ∧
    createMacvlan (ProvisionEnv.mk [] none "tmp0" none none none none)
      ⟨"eth0", "foo", 0, false, 0⟩ "eth1" [] = ([], some (.unknownMode "foo")) := by
  refine ⟨?_, ?_⟩
  · exact modeFromString_resolution.2.2.2.2.2.1 "foo" (by decide) (by decide) (by decide)
      (by decide) (by decide)
  · exact modeFromString_resolution.2.2.2.2.2.2 (ProvisionEnv.mk [] none "tmp0" none none none none)
      ⟨"eth0", "foo", 0, false, 0⟩ "eth1" [] (.unknownMode "foo") (by simp [modeFromString])

/-- macvlan.go:63-72: decode the configuration blob (json decoding is the
external json package, modelled as an already-decoded outcome) and require a
non-empty master field. -/
def loadConf (parsed : Except Nat NetConf) : Except CNIErr NetConf :=
  match parsed with
  | .error e => .error (.loadConfFailed e)
  | .ok n => if n.Master = "" then .error .masterRequired else .ok n

/-- macvlan.go:74-80: decode the invocation arguments (types.LoadArgs is
external, modelled as an already-decoded outcome). -/
def loadNetArgs (parsed : Except Nat NetArgs) : Except CNIErr NetArgs :=
  match parsed with
  | .error e => .error (.loadArgsFailed e)
  | .ok a => .ok a

/-- The success output of cmdAdd (macvlan.go:234-235): the IPAM result's
IPv4 config as finally mutated, with the DNS taken from the static
configuration. -/
structure AddOutput where
  IP4 : IPConfig
  DNS : Nat
deriving DecidableEq, Repr

/-- Collaborator outcomes consulted by cmdAdd (macvlan.go:147-237).
`hasInterface` models `checkIfContainerInterfaceExists` and `setDownErr`
models `setInterfaceDown`; both are repository helpers outside macvlan.go and
are Modelled from the spec: the first reports whether the target interface
already exists in the container namespace, the second best-effort sets it
administratively down and may fail.  `macLookup` models
`findMACAddressForContainer`, the external MAC lookup collaborator, applied
to the container id and the legacy UUID hint. -/
structure AddEnv where
  stdinParsed : Except Nat NetConf
  argsParsed : Except Nat NetArgs
  nsOpenOk : Bool
  hasInterface : Bool
  setDownErr : Option Nat
  prov : ProvisionEnv
  nsLinks : List String
  ipamAdd : Except CNIErr IPAMResult
  macLookup : String → String → Except CNIErr String
  macSetErr : Option Nat
  configErr : Option Nat

/-- Which collaborator steps cmdAdd actually invoked, and the MAC address it
handed to the in-namespace configuration closure. -/
structure AddTrace where
  createInvoked : Bool := false
  setDownInvoked : Bool := false
  ipamInvoked : Bool := false
  lookupInvoked : Bool := false
  macUsed : Option String := none
deriving DecidableEq, Repr

/-- macvlan.go:175-229, the tail of cmdAdd from the IPAM call onward: run
IPAM ADD, require an IPv4 config, resolve the MAC address (explicit override
first, lookup collaborator otherwise), then run the in-namespace
configuration closure.  Returns the command result plus whether the lookup
collaborator was invoked and which MAC was handed to the closure. -/
def addRestCore (env : AddEnv) (n : NetConf) (nArgs : NetArgs) (args : CmdArgs) :
    Except CNIErr AddOutput × (Bool × Option String) :=
  match env.ipamAdd with
  | .error e => (.error e, (false, none))
  | .ok r =>
    match r.IP4 with
    | none => (.error .missingIPv4Config, (false, none))
    | some ip4 =>
      let macRes : Except CNIErr String × Bool :=
        if nArgs.MACAddress ≠ "" then (.ok nArgs.MACAddress, false)
        else (env.macLookup args.ContainerID nArgs.RancherContainerUUID, true)
      match macRes.1 with
      | .error e => (.error e, (macRes.2, none))
      | .ok mac =>
        let c := nsConfigure env.macSetErr env.configErr n.IsDefaultGW ip4
        match c.2 with
        | some e => (.error e, (macRes.2, some mac))
        | none => (.ok ⟨c.1, n.DNS⟩, (macRes.2, some mac))

/-- The tail of cmdAdd together with the full invocation trace; the
interface-stage flags are passed in by cmdAdd. -/
def addRest (env : AddEnv) (n : NetConf) (nArgs : NetArgs) (args : CmdArgs)
    (createInvoked setDownInvoked : Bool) : Except CNIErr AddOutput × AddTrace :=
  let core := addRestCore env n nArgs args
  (core.1, ⟨createInvoked, setDownInvoked, true, core.2.1, core.2.2⟩)

/-- macvlan.go:147-237: the ADD orchestrator.  Load the configuration and
arguments, open the target namespace, then either reuse a pre-existing
target interface (best-effort set down, its failure only logged) or create
the macvlan link, and continue with IPAM, MAC resolution, and in-namespace
configuration. -/
def cmdAdd (env : AddEnv) (args : CmdArgs) : Except CNIErr AddOutput × AddTrace :=
  match loadConf env.stdinParsed with
  | .error e => (.error e, {})
  | .ok n =>
    match loadNetArgs env.argsParsed with
    | .error e => (.error e, {})
    | .ok nArgs =>
      if env.nsOpenOk then
        if env.hasInterface then
          let _down := env.setDownErr
          addRest env n nArgs args false true
        else
          match (createMacvlan env.prov n args.IfName env.nsLinks).2 with
          | some e => (.error e, { createInvoked := true })
          | none => addRest env n nArgs args true false
      else (.error (.netnsOpenFailed args.Netns), {})

theorem cmdAdd_reduces (env : AddEnv) (args : CmdArgs) (n : NetConf) (nArgs : NetArgs)
    (hconf : loadConf env.stdinParsed = .ok n)
    (hargs : loadNetArgs env.argsParsed = .ok nArgs)
    (hns : env.nsOpenOk = true)
    (hiface : env.hasInterface = true ∨
      (createMacvlan env.prov n args.IfName env.nsLinks).2 = none) :
    (cmdAdd env args).1 = (addRestCore env n nArgs args).1 ∧
    (cmdAdd env args).2.ipamInvoked = true ∧
    (cmdAdd env args).2.lookupInvoked = (addRestCore env n nArgs args).2.1 ∧
    (cmdAdd env args).2.macUsed = (addRestCore env n nArgs args).2.2 := by
  rcases hiface with hif | hcr
  · simp [cmdAdd, hconf, hargs, hns, hif, addRest]
  · by_cases hif : env.hasInterface
    · simp [cmdAdd, hconf, hargs, hns, hif, addRest]
    · simp [cmdAdd, hconf, hargs, hns, hif, hcr, addRest]

theorem addRest_congr (env env' : AddEnv) (n : NetConf) (nArgs : NetArgs) (args : CmdArgs)
    (ci sd : Bool)
    (h1 : env'.ipamAdd = env.ipamAdd) (h2 : env'.macLookup = env.macLookup)
    (h3 : env'.macSetErr = env.macSetErr) (h4 : env'.configErr = env.configErr) :
    addRest env' n nArgs args ci sd = addRest env n nArgs args ci sd := by
  unfold addRest addRestCore
  rw [h1, h2, h3, h4]

/-- C9: when the target interface already exists in the container namespace,
cmdAdd does not create a new link (the provisioning collaborators have no
influence on the outcome), attempts to set the existing interface
administratively down, and a failure of that attempt is only logged: the
command outcome is independent of it and the orchestrator proceeds to the
IPAM step and onward. -/
theorem cmdAdd_existing_interface_idempotent (env : AddEnv) (args : CmdArgs)
    (n : NetConf) (nArgs : NetArgs) (p : ProvisionEnv) (l : List String)
    (hconf : loadConf env.stdinParsed = .ok n)
    (hargs : loadNetArgs env.argsParsed = .ok nArgs)
    (hns : env.nsOpenOk = true)
    (hif : env.hasInterface = true) :
    (cmdAdd env args).2.createInvoked = false ∧
    (cmdAdd env args).2.setDownInvoked = true ∧
    (cmdAdd env args).2.ipamInvoked = true ∧
    cmdAdd { env with setDownErr := none } args = cmdAdd env args ∧
    cmdAdd { env with prov := p, nsLinks := l } args = cmdAdd env args := by
  have e2 : cmdAdd env args = addRest env n nArgs args false true := by
    simp [cmdAdd, hconf, hargs, hns, hif]
  refine ⟨?_, ?_, ?_, ?_, ?_⟩
  · simp [cmdAdd, hconf, hargs, hns, hif, addRest]
  · simp [cmdAdd, hconf, hargs, hns, hif, addRest]
  · simp [cmdAdd, hconf, hargs, hns, hif, addRest]
  · have e1 : cmdAdd { env with setDownErr := none } args =
        addRest { env with setDownErr := none } n nArgs args false true := by
      simp [cmdAdd, hconf, hargs, hns, hif]
    rw [e1, e2,
      addRest_congr env { env with setDownErr := none } n nArgs args false true rfl rfl rfl rfl]
  · have e1 : cmdAdd { env with prov := p, nsLinks := l } args =
        addRest { env with prov := p, nsLinks := l } n nArgs args false true := by
      simp [cmdAdd, hconf, hargs, hns, hif]
    rw [e1, e2,
      addRest_congr env { env with prov := p, nsLinks := l } n nArgs args false true
        rfl rfl rfl rfl]

/-- Witness for C9: a pre-existing interface and a failing set-down attempt
(error 3); creation is skipped and the outcome ignores both the set-down
error and the provisioning environment. -/
theorem cmdAdd_existing_interface_idempotent_witness :
    (cmdAdd (AddEnv.mk (.ok ⟨"eth0", "bridge", 1500, true, 4⟩) (.ok ⟨"u1", "", "aa:bb"⟩)
        true true (some 3) (ProvisionEnv.mk ["eth0"] none "t0" none none none none) []
        (.ok ⟨some ⟨⟨10, 24⟩, some 1, []⟩, 0⟩) (fun _ _ => .ok "mac") none none)
      ⟨"cid", "/var/run/netns/x", "eth1"⟩).2.createInvoked = false ∧
    (cmdAdd (AddEnv.mk (.ok ⟨"eth0", "bridge", 1500, true, 4⟩) (.ok ⟨"u1", "", "aa:bb"⟩)
        true true (some 3) (ProvisionEnv.mk ["eth0"] none "t0" none none none none) []
        (.ok ⟨some ⟨⟨10, 24⟩, some 1, []⟩, 0⟩) (fun _ _ => .ok "mac") none none)
      ⟨"cid", "/var/run/netns/x", "eth1"⟩).2.setDownInvoked = true ∧
    (cmdAdd (AddEnv.mk (.ok ⟨"eth0", "bridge", 1500, true, 4⟩) (.ok ⟨"u1", "", "aa:bb"⟩)
        true true (some 3) (ProvisionEnv.mk ["eth0"] none "t0" none none none none) []
        (.ok ⟨some ⟨⟨10, 24⟩, some 1, []⟩, 0⟩) (fun _ _ => .ok "mac") none none)
      ⟨"cid", "/var/run/netns/x", "eth1"⟩).2.ipamInvoked = true ∧
    cmdAdd { AddEnv.mk (.ok ⟨"eth0", "bridge", 1500, true, 4⟩) (.ok ⟨"u1", "", "aa:bb"⟩)
        true true (some 3) (ProvisionEnv.mk ["eth0"] none "t0" none none none none) []
        (.ok ⟨some ⟨⟨10, 24⟩, some 1, []⟩, 0⟩) (fun _ _ => .ok "mac") none none
        with setDownErr := none }
      ⟨"cid", "/var/run/netns/x", "eth1"⟩ =
      cmdAdd (AddEnv.mk (.ok ⟨"eth0", "bridge", 1500, true, 4⟩) (.ok ⟨"u1", "", "aa:bb"⟩)
        true true (some 3) (ProvisionEnv.mk ["eth0"] none "t0" none none none none) []
        (.ok ⟨some ⟨⟨10, 24⟩, some 1, []⟩, 0⟩) (fun _ _ => .ok "mac") none none)
      ⟨"cid", "/var/run/netns/x", "eth1"⟩ ∧
    cmdAdd { AddEnv.mk (.ok ⟨"eth0", "bridge", 1500, true, 4⟩) (.ok ⟨"u1", "", "aa:bb"⟩)
        true true (some 3) (ProvisionEnv.mk ["eth0"] none "t0" none none none none) []
        (.ok ⟨some ⟨⟨10, 24⟩, some 1, []⟩, 0⟩) (fun _ _ => .ok "mac") none none
        with prov := ProvisionEnv.mk [] (some 1) "z" (some 2) (some 3) (some 4) (some 5),
             nsLinks := ["eth1"] }
      ⟨"cid", "/var/run/netns/x", "eth1"⟩ =
      cmdAdd (AddEnv.mk (.ok ⟨"eth0", "bridge", 1500, true, 4⟩) (.ok ⟨"u1", "", "aa:bb"⟩)
        true true (some 3) (ProvisionEnv.mk ["eth0"] none "t0" none none none none) []
        (.ok ⟨some ⟨⟨10, 24⟩, some 1, []⟩, 0⟩) (fun _ _ => .ok "mac") none none)
      ⟨"cid", "/var/run/netns/x", "eth1"⟩ :=
  cmdAdd_existing_interface_idempotent
    (AddEnv.mk (.ok ⟨"eth0", "bridge", 1500, true, 4⟩) (.ok ⟨"u1", "", "aa:bb"⟩)
      true true (some 3) (ProvisionEnv.mk ["eth0"] none "t0" none none none none) []
      (.ok ⟨some ⟨⟨10, 24⟩, some 1, []⟩, 0⟩) (fun _ _ => .ok "mac") none none)
    ⟨"cid", "/var/run/netns/x", "eth1"⟩ ⟨"eth0", "bridge", 1500, true, 4⟩ ⟨"u1", "", "aa:bb"⟩
    (ProvisionEnv.mk [] (some 1) "z" (some 2) (some 3) (some 4) (some 5)) ["eth1"]
    rfl rfl rfl rfl

/-- C5: MAC-address resolution in cmdAdd prefers the explicit override: a
non-empty MACAddress argument is used verbatim as the MAC to set and the
lookup collaborator is never invoked (the outcome does not depend on it);
an empty one makes cmdAdd query the lookup collaborator with the container
id and the legacy UUID hint and propagate its result or error unchanged. -/
theorem cmdAdd_mac_override_precedence (env : AddEnv) (args : CmdArgs)
    (n : NetConf) (nArgs : NetArgs) (r : IPAMResult) (ip4 : IPConfig)
    (f : String → String → Except CNIErr String)
    (hconf : loadConf env.stdinParsed = .ok n)
    (hargs : loadNetArgs env.argsParsed = .ok nArgs)
    (hns : env.nsOpenOk = true)
    (hiface : env.hasInterface = true ∨
      (createMacvlan env.prov n args.IfName env.nsLinks).2 = none)
    (hipam : env.ipamAdd = .ok r)
    (hip4 : r.IP4 = some ip4) :
    (nArgs.MACAddress ≠ "" →
      (cmdAdd env args).2.lookupInvoked = false ∧
      (cmdAdd env args).2.macUsed = some nArgs.MACAddress ∧
      cmdAdd { env with macLookup := f } args = cmdAdd env args) ∧
    (nArgs.MACAddress = "" →
      (cmdAdd env args).2.lookupInvoked = true ∧
      (∀ e, env.macLookup args.ContainerID nArgs.RancherContainerUUID = .error e →
        (cmdAdd env args).1 = .error e) ∧
      (∀ m, env.macLookup args.ContainerID nArgs.RancherContainerUUID = .ok m →
        (cmdAdd env args).2.macUsed = some m)) := by
  obtain ⟨h1, h2, h3, h4⟩ := cmdAdd_reduces env args n nArgs hconf hargs hns hiface
  constructor
  · intro hmac
    have hcore : (addRestCore env n nArgs args).2 = (false, some nArgs.MACAddress) := by
      cases hc : (nsConfigure env.macSetErr env.configErr n.IsDefaultGW ip4).2 <;>
        simp [addRestCore, hipam, hip4, hmac, hc]
    refine ⟨by rw [h3, hcore], by rw [h4, hcore], ?_⟩
    rcases hiface with hhi | hcr
    · simp [cmdAdd, hconf, hargs, hns, hhi, addRest, addRestCore, hipam, hip4, hmac]
    · by_cases hhi : env.hasInterface
      · simp [cmdAdd, hconf, hargs, hns, hhi, addRest, addRestCore, hipam, hip4, hmac]
      · simp [cmdAdd, hconf, hargs, hns, hhi, hcr, addRest, addRestCore, hipam, hip4, hmac]
  · intro hmac
    have ha : (addRestCore env n nArgs args).2.1 = true := by
      cases hlk : env.macLookup args.ContainerID nArgs.RancherContainerUUID with
      | error e => simp [addRestCore, hipam, hip4, hmac, hlk]
      | ok m =>
        cases hc : (nsConfigure env.macSetErr env.configErr n.IsDefaultGW ip4).2 <;>
          simp [addRestCore, hipam, hip4, hmac, hlk, hc]
    refine ⟨by rw [h3]; exact ha, ?_, ?_⟩
    · intro e hlk
      rw [h1]
      simp [addRestCore, hipam, hip4, hmac, hlk]
    · intro m hlk
      rw [h4]
      cases hc : (nsConfigure env.macSetErr env.configErr n.IsDefaultGW ip4).2 <;>
        simp [addRestCore, hipam, hip4, hmac, hlk, hc]

/-- Witness for C5: the explicit override "aa:bb:cc:dd:ee:ff" wins over a
lookup collaborator that would fail, and replacing the collaborator does not
change the outcome. -/
theorem cmdAdd_mac_override_precedence_witness :
    (cmdAdd (AddEnv.mk (.ok ⟨"eth0", "bridge", 0, false, 0⟩)
        (.ok ⟨"u2", "", "aa:bb:cc:dd:ee:ff"⟩) true true none
        (ProvisionEnv.mk ["eth0"] none "t0" none none none none) []
        (.ok ⟨some ⟨⟨10, 24⟩, some 1, []⟩, 0⟩) (fun _ _ => .error (.macLookupFailed 1))
        none none)
      ⟨"cid", "/var/run/netns/x", "eth1"⟩).2.lookupInvoked = false ∧
    (cmdAdd (AddEnv.mk (.ok ⟨"eth0", "bridge", 0, false, 0⟩)
        (.ok ⟨"u2", "", "aa:bb:cc:dd:ee:ff"⟩) true true none
        (ProvisionEnv.mk ["eth0"] none "t0" none none none none) []
        (.ok ⟨some ⟨⟨10, 24⟩, some 1, []⟩, 0⟩) (fun _ _ => .error (.macLookupFailed 1))
        none none)
      ⟨"cid", "/var/run/netns/x", "eth1"⟩).2.macUsed = some "aa:bb:cc:dd:ee:ff" ∧
    cmdAdd { AddEnv.mk (.ok ⟨"eth0", "bridge", 0, false, 0⟩)
        (.ok ⟨"u2", "", "aa:bb:cc:dd:ee:ff"⟩) true true none
        (ProvisionEnv.mk ["eth0"] none "t0" none none none none) []
        (.ok ⟨some ⟨⟨10, 24⟩, some 1, []⟩, 0⟩) (fun _ _ => .error (.macLookupFailed 1))
        none none with macLookup := fun _ _ => .ok "zz" }
      ⟨"cid", "/var/run/netns/x", "eth1"⟩ =
      cmdAdd (AddEnv.mk (.ok ⟨"eth0", "bridge", 0, false, 0⟩)
        (.ok ⟨"u2", "", "aa:bb:cc:dd:ee:ff"⟩) true true none
        (ProvisionEnv.mk ["eth0"] none "t0" none none none none) []
        (.ok ⟨some ⟨⟨10, 24⟩, some 1, []⟩, 0⟩) (fun _ _ => .error (.macLookupFailed 1))
        none none)
      ⟨"cid", "/var/run/netns/x", "eth1"⟩ :=
  (cmdAdd_mac_override_precedence
    (AddEnv.mk (.ok ⟨"eth0", "bridge", 0, false, 0⟩) (.ok ⟨"u2", "", "aa:bb:cc:dd:ee:ff"⟩)
      true true none (ProvisionEnv.mk ["eth0"] none "t0" none none none none) []
      (.ok ⟨some ⟨⟨10, 24⟩, some 1, []⟩, 0⟩) (fun _ _ => .error (.macLookupFailed 1))
      none none)
    ⟨"cid", "/var/run/netns/x", "eth1"⟩ ⟨"eth0", "bridge", 0, false, 0⟩
    ⟨"u2", "", "aa:bb:cc:dd:ee:ff"⟩ ⟨some ⟨⟨10, 24⟩, some 1, []⟩, 0⟩ ⟨⟨10, 24⟩, some 1, []⟩
    (fun _ _ => .ok "zz") rfl rfl rfl (Or.inl rfl) rfl rfl).1 (by decide)

/-- C6: cmdAdd propagates an IPAM error unchanged, and fails with the
missing-IPv4-config error when the IPAM result carries no IPv4 assignment. -/
theorem cmdAdd_ipam_errors (env : AddEnv) (args : CmdArgs) (n : NetConf) (nArgs : NetArgs)
    (hconf : loadConf env.stdinParsed = .ok n)
    (hargs : loadNetArgs env.argsParsed = .ok nArgs)
    (hns : env.nsOpenOk = true)
    (hiface : env.hasInterface = true ∨
      (createMacvlan env.prov n args.IfName env.nsLinks).2 = none) :
    (∀ e, env.ipamAdd = .error e → (cmdAdd env args).1 = .error e) ∧
    (∀ r, env.ipamAdd = .ok r → r.IP4 = none →
      (cmdAdd env args).1 = .error .missingIPv4Config) := by
  obtain ⟨h1, -, -, -⟩ := cmdAdd_reduces env args n nArgs hconf hargs hns hiface
  constructor
  · intro e he
    rw [h1]
    simp [addRestCore, he]
  · intro r hr hip
    rw [h1]
    simp [addRestCore, hr, hip]

/-- Witness for C6: an IPAM failure with cause 3 is the command's result. -/
theorem cmdAdd_ipam_errors_witness :
    (cmdAdd (AddEnv.mk (.ok ⟨"eth0", "bridge", 0, false, 0⟩) (.ok ⟨"u3", "", ""⟩)
        true true none (ProvisionEnv.mk ["eth0"] none "t0" none none none none) []
        (.error (.ipamFailed 3)) (fun _ _ => .ok "mac") none none)
      ⟨"cid", "/var/run/netns/x", "eth1"⟩).1 = .error (.ipamFailed 3) :=
  (cmdAdd_ipam_errors
    (AddEnv.mk (.ok ⟨"eth0", "bridge", 0, false, 0⟩) (.ok ⟨"u3", "", ""⟩)
      true true none (ProvisionEnv.mk ["eth0"] none "t0" none none none none) []
      (.error (.ipamFailed 3)) (fun _ _ => .ok "mac") none none)
    ⟨"cid", "/var/run/netns/x", "eth1"⟩ ⟨"eth0", "bridge", 0, false, 0⟩ ⟨"u3", "", ""⟩
    rfl rfl rfl (Or.inl rfl)).1 (.ipamFailed 3) rfl

/-- Modelled from the spec: the external namespace-context and link-deletion
collaborators used by cmdDel at macvlan.go:254-256 (ns.WithNetNSPath running
ip.DelLinkByName inside the namespace) are not part of macvlan.go.  Per the
spec's collaborator boundary, opening a namespace path that does not exist
fails (ADD "fail NamespaceNotFound if it cannot be opened"), and link
deletion starts with a lookup by name that fails when the link is absent;
successful deletion is abstracted as success. -/
def withNetNSPathDelLink (nsExists : String → Bool) (linkInNs : String → String → Bool)
    (netnsPath ifName : String) : Option CNIErr :=
  if nsExists netnsPath then
    if linkInNs netnsPath ifName then none else some (.linkNotFound ifName)
  else some (.netnsOpenFailed netnsPath)

/-- Collaborator outcomes consulted by cmdDel (macvlan.go:239-257):
configuration decoding, the IPAM DEL subprocess, and the state the
namespace/link collaborators see. -/
structure DelEnv where
  stdinParsed : Except Nat NetConf
  ipamDel : Option CNIErr
  nsExists : String → Bool
  linkInNs : String → String → Bool

/-- macvlan.go:239-257: the DEL orchestrator.  Load the configuration, run
IPAM DEL and propagate its error, return success immediately when no
namespace path was supplied, and otherwise run the link deletion inside the
namespace, propagating its result unchanged.  The Bool records whether the
namespace/link-deletion operation was invoked. -/
def cmdDel (env : DelEnv) (args : CmdArgs) : Option CNIErr × Bool :=
  match loadConf env.stdinParsed with
  | .error e => (some e, false)
  | .ok _ =>
    match env.ipamDel with
    | some e => (some e, false)
    | none =>
      if args.Netns = "" then (none, false)
      else (withNetNSPathDelLink env.nsExists env.linkInNs args.Netns args.IfName, true)

/-- C7: DEL with an empty namespace path returns success immediately after a
successful IPAM release, without invoking the link-deletion operation. -/
theorem cmdDel_empty_netns_success (env : DelEnv) (args : CmdArgs) (n : NetConf)
    (hconf : loadConf env.stdinParsed = .ok n)
    (hipam : env.ipamDel = none)
    (hns : args.Netns = "") :
    cmdDel env args = (none, false) := by
  simp [cmdDel, hconf, hipam, hns]

/-- Witness for C7: empty namespace path, successful IPAM release. -/
theorem cmdDel_empty_netns_success_witness :
    cmdDel (DelEnv.mk (.ok ⟨"eth0", "bridge", 0, false, 0⟩) none (fun _ => true)
        (fun _ _ => true)) ⟨"cid", "", "eth1"⟩ = (none, false) :=
  cmdDel_empty_netns_success
    (DelEnv.mk (.ok ⟨"eth0", "bridge", 0, false, 0⟩) none (fun _ => true) (fun _ _ => true))
    ⟨"cid", "", "eth1"⟩ ⟨"eth0", "bridge", 0, false, 0⟩ rfl rfl rfl

/-- C2 fails on the code: cmdDel has no special-casing of "namespace or link
already absent" — it returns `ns.WithNetNSPath`'s result unchanged
(macvlan.go:254-256), so a DEL invocation whose non-empty namespace path
names a namespace that does not exist returns the namespace-open error, not
success; likewise an absent link yields the lookup error.  Evaluated here at
a concrete failing input: valid configuration, successful IPAM release,
namespace path "/var/run/netns/gone" that no namespace matches. -/
theorem cmdDel_absent_ns_returns_error :
    cmdDel (DelEnv.mk (.ok ⟨"eth0", "bridge", 0, false, 0⟩) none (fun _ => false)
        (fun _ _ => false)) ⟨"cid", "/var/run/netns/gone", "eth1"⟩ =
      (some (.netnsOpenFailed "/var/run/netns/gone"), true) ∧
    cmdDel (DelEnv.mk (.ok ⟨"eth0", "bridge", 0, false, 0⟩) none (fun _ => true)
        (fun _ _ => false)) ⟨"cid", "/var/run/netns/present", "eth1"⟩ =
      (some (.linkNotFound "eth1"), true) := by
  constructor
  · simp [cmdDel, loadConf, withNetNSPathDelLink]
  · simp [cmdDel, loadConf, withNetNSPathDelLink]
